import Mathlib

/-!
Shallow embedding of the telemetry visualization pipeline of
`src/iotman-webui/app/main.py` (repository IoTManFrontend).

Modelling conventions:
* Voltages and other real-valued quantities are modelled as rationals (ℚ);
  every value exercised below is exact in ℚ, so no float-rounding behaviour
  is at issue.
* A raw value arriving in the backend JSON is either numeric or a string
  (`RawVal`), so that the behaviour of the pandas aggregations on a column
  mixing numbers and strings (a `TypeError` raised at aggregation time) can
  be expressed.  Error message texts are paraphrases of the Python ones.
* Timestamps are civil UTC date-times (`DateTime`, year/month/…/second)
  compared lexicographically; `pd.to_datetime` parsing of ISO strings is
  modelled as already-parsed instants, since no settled claim exercises the
  parse itself.
* `df.sort_values('timestamp')` (main.py line 61) is modelled as a sort by
  timestamp.  The library default `kind='quicksort'` fixes some
  deterministic but unspecified order among readings with equal timestamps;
  the model uses a stable insertion sort, and no theorem below about a
  concrete input puts two equal timestamps in a tie-order-sensitive
  position.
* Python exceptions are modelled with `Except String`; the two
  `try/except` handlers of the source (lines 15-37 and 45-186) become
  explicit `match`es on those `Except` values.
-/

attribute [local semireducible] Rat.add Rat.mul Rat.sub Rat.inv

namespace IotMan

/-- A raw JSON scalar: numeric, or a (non-numeric) string. -/
inductive RawVal where
  | num (q : ℚ)
  | str (s : String)
deriving DecidableEq, Repr

/-- Whether a raw value is numeric. -/
def RawVal.isNum : RawVal → Bool
  | .num _ => true
  | .str _ => false

/-- A civil UTC date-time, as produced by `pd.to_datetime`; ordering of
instants is the lexicographic ordering of the fields. -/
structure DateTime where
  year : Nat
  month : Nat
  day : Nat
  hour : Nat
  minute : Nat
  second : Nat
deriving DecidableEq, Repr

/-- Lexicographic comparison of instants (the order `sort_values` sorts by). -/
def DateTime.le (a b : DateTime) : Bool :=
  if a.year ≠ b.year then a.year < b.year
  else if a.month ≠ b.month then a.month < b.month
  else if a.day ≠ b.day then a.day < b.day
  else if a.hour ≠ b.hour then a.hour < b.hour
  else if a.minute ≠ b.minute then a.minute < b.minute
  else a.second ≤ b.second

/-- One record of the backend response's `items` list:
`{battery_id, voltage, timestamp}` (main.py line 47, spec §6 input
boundary). -/
structure Item where
  battery_id : String
  voltage : RawVal
  timestamp : DateTime
deriving DecidableEq, Repr

/-- Zero-pad a natural to two digits (for `strftime`-style output). -/
def pad2 (n : Nat) : String :=
  if n < 10 then "0" ++ toString n else toString n

/-- Zero-pad a natural to four digits (for `strftime`-style output). -/
def pad4 (n : Nat) : String :=
  if n < 10 then "000" ++ toString n
  else if n < 100 then "00" ++ toString n
  else if n < 1000 then "0" ++ toString n
  else toString n

/-- Model of `timestamp.strftime` with format `%Y-%m-%d %H:%M:%S` (main.py line
165). -/
def DateTime.strftime (d : DateTime) : String :=
  pad4 d.year ++ "-" ++ pad2 d.month ++ "-" ++ pad2 d.day ++ " " ++
    pad2 d.hour ++ ":" ++ pad2 d.minute ++ ":" ++ pad2 d.second

/-- Round half-up to the nearest integer, on rationals. -/
def roundQ (q : ℚ) : Int := (q + 1/2).floor

/-- Python `f"{x:.2f}"` on a numeric value, modelled on rationals: the value
rounded to hundredths, printed with exactly two decimals.  (The IEEE
half-to-even tie rule of the float original differs from half-up only at
exact half-hundredths, which nothing below exercises.) -/
def fmt2 (q : ℚ) : String :=
  let n : Int := roundQ (q * 100)
  let a : Nat := n.natAbs
  (if n < 0 then "-" else "") ++ toString (a / 100) ++ "." ++ pad2 (a % 100)

/-- Stable insertion of one record into a timestamp-sorted list: the new
record, which comes from earlier in the original order than everything in
the accumulator, goes before records with an equal timestamp. -/
def insertByTs (x : Item) : List Item → List Item
  | [] => [x]
  | y :: ys =>
      if DateTime.le x.timestamp y.timestamp then x :: y :: ys
      else y :: insertByTs x ys

/-- Model of `df = df.sort_values('timestamp')` (main.py line 61): sort the frame by
ascending timestamp.  See the module comment for the tie-order convention. -/
def sortByTimestamp (df : List Item) : List Item := df.foldr insertByTs []

/-- First-occurrence deduplication with an accumulator of already-seen ids. -/
def dedupGo (seen : List String) : List String → List String
  | [] => []
  | x :: xs => if x ∈ seen then dedupGo seen xs else x :: dedupGo (x :: seen) xs

/-- Model of `unique_batteries = df['battery_id'].unique()` (main.py line 67): the
distinct battery ids in order of first appearance in the (timestamp-sorted)
frame. -/
def uniqueIds (df : List Item) : List String := dedupGo [] (df.map (·.battery_id))

/-- Model of `battery_data = df[df['battery_id'] == battery_id]` (main.py lines 71
and 158): the rows of the frame belonging to one battery, in frame order. -/
def batteryData (df : List Item) (battery_id : String) : List Item :=
  df.filter (fun it => it.battery_id == battery_id)

/-- The fixed color palette (main.py line 68): ten colors. -/
def colors : List String :=
  ["#1f77b4", "#ff7f0e", "#2ca02c", "#d62728", "#9467bd",
   "#8c564b", "#e377c2", "#7f7f7f", "#bcbd22", "#17becf"]

/-- One `go.Scatter` trace of the chart (main.py lines 74-86): the data-model
parts (name, points, color) of the rendered series. -/
structure Trace where
  name : String
  x : List DateTime
  y : List RawVal
  colorIndex : Nat
  color : String
deriving DecidableEq, Repr

/-- The trace-building loop `for i, battery_id in enumerate(unique_batteries)`
(main.py lines 70-86): one trace per unique battery id, in first-appearance
order, with `color = colors[i % len(colors)]` (line 72). -/
def chartTraces (df : List Item) : List Trace :=
  (uniqueIds df).enum.map (fun p =>
    let battery_data := batteryData df p.2
    { name := "Battery " ++ p.2
      x := battery_data.map (·.timestamp)
      y := battery_data.map (·.voltage)
      colorIndex := p.1 % colors.length
      color := colors.getD (p.1 % colors.length) "" })

/-- Comparison-based combination of two raw column values, as in the pandas
reductions `min`/`max` over an object column: comparing a string with a
number raises `TypeError`. -/
def rawValMin (a b : RawVal) : Except String RawVal :=
  match a, b with
  | .num x, .num y => .ok (.num (min x y))
  | .str x, .str y => .ok (.str (min x y))
  | _, _ => .error "TypeError: unsupported comparison between str and float"

/-- See `rawValMin`. -/
def rawValMax (a b : RawVal) : Except String RawVal :=
  match a, b with
  | .num x, .num y => .ok (.num (max x y))
  | .str x, .str y => .ok (.str (max x y))
  | _, _ => .error "TypeError: unsupported comparison between str and float"

/-- Running reduction for `seriesMin`. -/
def seriesMinGo (acc : RawVal) : List RawVal → Except String RawVal
  | [] => .ok acc
  | v :: vs =>
      match rawValMin acc v with
      | .ok m => seriesMinGo m vs
      | .error e => .error e

/-- Model of `battery_data['voltage'].min()` (main.py line 167): raises on a column
mixing strings and numbers. -/
def seriesMin : List RawVal → Except String RawVal
  | [] => .error "min of empty series"
  | v :: vs => seriesMinGo v vs

/-- Running reduction for `seriesMax`. -/
def seriesMaxGo (acc : RawVal) : List RawVal → Except String RawVal
  | [] => .ok acc
  | v :: vs =>
      match rawValMax acc v with
      | .ok m => seriesMaxGo m vs
      | .error e => .error e

/-- Model of `battery_data['voltage'].max()` (main.py line 168). -/
def seriesMax : List RawVal → Except String RawVal
  | [] => .error "max of empty series"
  | v :: vs => seriesMaxGo v vs

/-- The numeric contents of a column, if every value is numeric. -/
def allNums : List RawVal → Option (List ℚ)
  | [] => some []
  | .num q :: vs => (allNums vs).map (fun qs => q :: qs)
  | .str _ :: _ => none

/-- Model of `battery_data['voltage'].mean()` (main.py line 169): the population mean
`sum / count`; raises on a column containing a non-numeric value. -/
def seriesMean (vs : List RawVal) : Except String ℚ :=
  match allNums vs with
  | some qs => .ok (qs.sum / (qs.length : ℚ))
  | none => .error "TypeError: could not convert string to numeric"

/-- Python `f"{x:.2f} V"` applied to a raw value (main.py lines 164,
167-169): formatting a string with a float format code raises `ValueError`. -/
def fmtRaw : RawVal → Except String String
  | .num q => .ok (fmt2 q ++ " V")
  | .str _ => .error "ValueError: unknown format code f for object of type str"

/-- One row of `summary_rows` (main.py lines 162-170), with exactly the
fields and value shapes the source dict literal produces: four formatted
voltage strings, one formatted timestamp string, and a numeric count. -/
structure SummaryRow where
  battery_id : String
  latest_voltage : String
  latest_timestamp : String
  readings_count : Nat
  min_voltage : String
  max_voltage : String
  avg_voltage : String
deriving DecidableEq, Repr

/-- The body of the stats loop for one battery id (main.py lines 158-170):
take the battery's rows of the sorted frame, let `latest_reading` be the
last one (`iloc[-1]`), and build the summary dict; any of the formatting or
aggregation steps may raise.  The fallible steps appear in the source's
evaluation order. -/
def summaryRowFor (df : List Item) (id : String) : Except String (Option SummaryRow) :=
  let battery_data := batteryData df id
  match battery_data.getLast? with
  | none => .ok none
  | some latest_reading =>
    match fmtRaw latest_reading.voltage with
    | .error e => .error e
    | .ok lv =>
      match seriesMin (battery_data.map (·.voltage)) with
      | .error e => .error e
      | .ok mnv =>
        match fmtRaw mnv with
        | .error e => .error e
        | .ok mns =>
          match seriesMax (battery_data.map (·.voltage)) with
          | .error e => .error e
          | .ok mxv =>
            match fmtRaw mxv with
            | .error e => .error e
            | .ok mxs =>
              match seriesMean (battery_data.map (·.voltage)) with
              | .error e => .error e
              | .ok av =>
                .ok (some
                  { battery_id := id
                    latest_voltage := lv
                    latest_timestamp := latest_reading.timestamp.strftime ++ " UTC"
                    readings_count := battery_data.length
                    min_voltage := mns
                    max_voltage := mxs
                    avg_voltage := fmt2 av ++ " V" })

/-- The stats loop `for battery_id in unique_batteries` (main.py lines
157-170); an exception at any battery aborts the whole loop. -/
def summaryRowsGo (df : List Item) : List String → Except String (List SummaryRow)
  | [] => .ok []
  | id :: ids =>
    match summaryRowFor df id with
    | .error e => .error e
    | .ok none => summaryRowsGo df ids
    | .ok (some row) =>
      match summaryRowsGo df ids with
      | .error e => .error e
      | .ok rest => .ok (row :: rest)

/-- The full `summary_rows` computation (main.py lines 156-170). -/
def summaryRows (df : List Item) : Except String (List SummaryRow) :=
  summaryRowsGo df (uniqueIds df)

/-- Outcome of `create_visualizations` (main.py lines 39-186), as the data
content the container holds when the call returns: either the early
`"No battery data available."` label (lines 50-52); or the rendered chart
traces plus summary-table rows; or — when the summary loop raises — the
chart traces that were already rendered at line 149 *together with* the
appended catch-all error label `"Error creating visualizations: ..."`
(lines 185-186).  In the source the exception escapes the summary card's
`with` block, so the card's `"Battery Summary"` heading also persists with
no table inside; that heading is presentation chrome carrying no data and is
not modelled, but the chart is data and is kept. -/
inductive VizResult where
  | noData
  | rendered (traces : List Trace) (summary_rows : List SummaryRow)
  | errorLabel (traces : List Trace) (text : String)
deriving DecidableEq, Repr

/-- Model of `create_visualizations` (main.py lines 39-186), restricted to
its data model: empty `items` short-circuits to the no-data label; otherwise
the frame is sorted by timestamp and the chart traces are built and rendered
(lines 64-149; pure — `go.Scatter` accepts and serializes a non-numeric `y`
value, so this step does not raise on a malformed voltage); then the summary
rows are computed (lines 156-183).  An exception there is caught by the
handler at lines 185-186, which appends the error label after the chart that
is already in the container — the traces persist alongside the label. -/
def create_visualizations (items : List Item) : VizResult :=
  match items with
  | [] => .noData
  | it :: its =>
    let df := sortByTimestamp (it :: its)
    match summaryRows df with
    | .ok rows => .rendered (chartTraces df) rows
    | .error e => .errorLabel (chartTraces df) ("Error creating visualizations: " ++ e)

/-- The query parameters built by `fetch_data` (main.py lines 17-21). -/
def buildParams (start_time end_time : Option Int) : List (String × Int) :=
  (match start_time with
   | some s => [("start_time", s)]
   | none => []) ++
  (match end_time with
   | some e => [("end_time", e)]
   | none => [])

/-- Observable outcome of one `fetch_data` call: the query parameters sent,
the final `status_label.text`, and the visualization result if
`create_visualizations` was reached (`none` otherwise). -/
structure FetchOutcome where
  query : List (String × Int)
  status : String
  viz : Option VizResult
deriving DecidableEq, Repr

/-- Model of `fetch_data` (main.py lines 12-37).  The HTTP round-trip and JSON
decoding are abstracted into `resp`: `.error e` models any exception from
`requests.get`, `raise_for_status` or `response.json()`; `.ok none` models a
falsy response or one without an `'items'` key; `.ok (some items)` a
well-formed response.  `nowStr` is the wall-clock string used in the success
status (line 35).  Everything after line 14 runs inside `try/except
Exception` (lines 15-37), so every failure ends as status text. -/
def fetch_data (start_time end_time : Option Int)
    (resp : Except String (Option (List Item))) (nowStr : String) : FetchOutcome :=
  let params := buildParams start_time end_time
  match resp with
  | .error e => ⟨params, "Error fetching data: " ++ e, none⟩
  | .ok none => ⟨params, "No data available.", none⟩
  | .ok (some []) => ⟨params, "No data available.", none⟩
  | .ok (some (it :: its)) =>
      ⟨params,
       "Data loaded successfully. Last updated: " ++ nowStr ++ " UTC",
       some (create_visualizations (it :: its))⟩

/-- The `(start_time, end_time)` pair a `refresh_with_time_range` invocation
passes on to `fetch_data` (main.py lines 212 and 226). -/
structure RefreshCall where
  start_time : Option Int
  end_time : Option Int
deriving DecidableEq, Repr

/-- Model of `refresh_with_time_range(value, unit)` (main.py lines 209-226), with
instants as UTC seconds and `now = datetime.utcnow()`: if either argument is
`None` all data is fetched; otherwise `start_time = now - value·unit` for
the three known units, and `None` (no lower bound) for any other unit.  The
function validates nothing and always proceeds to `fetch_data`. -/
def refresh_with_time_range (value : Option Int) (unit : Option String)
    (now : Int) : RefreshCall :=
  match value, unit with
  | some v, some u =>
      let start_time : Option Int :=
        if u = "minute" then some (now - v * 60)
        else if u = "hour" then some (now - v * 3600)
        else if u = "day" then some (now - v * 86400)
        else none
      ⟨start_time, some now⟩
  | _, _ => ⟨none, none⟩

/-! Concrete example inputs used in the theorems below. -/

/-- Timestamp shorthand for concrete inputs: second `s` of 2026-01-01 00:00 UTC. -/
def mkTs (s : Nat) : DateTime := ⟨2026, 1, 1, 0, 0, s⟩

/-- One battery with voltages 1.0, 2.0, 3.0 at increasing timestamps. -/
def exSeries3 : List Item :=
  [⟨"b1", .num 1, mkTs 1⟩, ⟨"b1", .num 2, mkTs 2⟩, ⟨"b1", .num 3, mkTs 3⟩]

/-- Two devices where the lexicographically larger id reports first: device
`"B"` has the earlier reading. -/
def exBA : List Item := [⟨"B", .num 1, mkTs 1⟩, ⟨"A", .num 2, mkTs 2⟩]

/-- Twelve distinct device ids, one reading each, in ascending id and
timestamp order. -/
def ex12 : List Item :=
  [⟨"d00", .num 1, mkTs 0⟩, ⟨"d01", .num 1, mkTs 1⟩, ⟨"d02", .num 1, mkTs 2⟩,
   ⟨"d03", .num 1, mkTs 3⟩, ⟨"d04", .num 1, mkTs 4⟩, ⟨"d05", .num 1, mkTs 5⟩,
   ⟨"d06", .num 1, mkTs 6⟩, ⟨"d07", .num 1, mkTs 7⟩, ⟨"d08", .num 1, mkTs 8⟩,
   ⟨"d09", .num 1, mkTs 9⟩, ⟨"d10", .num 1, mkTs 10⟩, ⟨"d11", .num 1, mkTs 11⟩]

/-- The summary row the pipeline emits for `exSeries3`. -/
def exRow3 : SummaryRow :=
  { battery_id := "b1", latest_voltage := "3.00 V",
    latest_timestamp := "2026-01-01 00:00:03 UTC", readings_count := 3,
    min_voltage := "1.00 V", max_voltage := "3.00 V", avg_voltage := "2.00 V" }

/-- A batch of five records for one battery whose third record has a
non-numeric voltage. -/
def exBad5 : List Item :=
  [⟨"b1", .num 1, mkTs 1⟩, ⟨"b1", .num 2, mkTs 2⟩, ⟨"b1", .str "abc", mkTs 3⟩,
   ⟨"b1", .num 4, mkTs 4⟩, ⟨"b1", .num 5, mkTs 5⟩]

/-! Helper lemmas about the embedded operations. -/

theorem mem_insertByTs {a x : Item} {l : List Item} :
    a ∈ insertByTs x l ↔ a = x ∨ a ∈ l := by
  induction l with
  | nil => simp [insertByTs]
  | cons y ys ih =>
      simp only [insertByTs]
      split
      · simp
      · simp only [List.mem_cons, ih]
        tauto

theorem mem_sortByTimestamp {a : Item} {l : List Item} :
    a ∈ sortByTimestamp l ↔ a ∈ l := by
  induction l with
  | nil => simp [sortByTimestamp]
  | cons x xs ih =>
      simp only [sortByTimestamp, List.foldr_cons] at ih ⊢
      rw [mem_insertByTs, ih, List.mem_cons]

theorem length_insertByTs (x : Item) (l : List Item) :
    (insertByTs x l).length = l.length + 1 := by
  induction l with
  | nil => rfl
  | cons y ys ih =>
      simp only [insertByTs]
      split
      · rfl
      · simp [ih]

theorem length_sortByTimestamp (l : List Item) :
    (sortByTimestamp l).length = l.length := by
  induction l with
  | nil => rfl
  | cons x xs ih =>
      simp only [sortByTimestamp, List.foldr_cons] at ih ⊢
      rw [length_insertByTs, ih, List.length_cons]

theorem mem_dedupGo {a : String} {l : List String} : ∀ {seen : List String},
    a ∈ dedupGo seen l ↔ a ∈ l ∧ a ∉ seen := by
  induction l with
  | nil => simp [dedupGo]
  | cons x xs ih =>
      intro seen
      simp only [dedupGo]
      split
      · next hx =>
          rw [ih]
          simp only [List.mem_cons]
          constructor
          · rintro ⟨hm, hs⟩
            exact ⟨Or.inr hm, hs⟩
          · rintro ⟨hm | hm, hs⟩
            · exact absurd (hm ▸ hx) hs
            · exact ⟨hm, hs⟩
      · next hx =>
          simp only [List.mem_cons, ih, List.mem_cons]
          rcases eq_or_ne a x with rfl | hax
          · simp [hx]
          · constructor
            · rintro (rfl | ⟨hm, hs⟩)
              · exact absurd rfl hax
              · exact ⟨Or.inr hm, fun h => hs (Or.inr h)⟩
            · rintro ⟨rfl | hm, hs⟩
              · exact absurd rfl hax
              · exact Or.inr ⟨hm, fun h => hs (h.resolve_left hax)⟩

theorem nodup_dedupGo {l : List String} : ∀ {seen : List String},
    (dedupGo seen l).Nodup := by
  induction l with
  | nil => intro seen; simp [dedupGo]
  | cons x xs ih =>
      intro seen
      simp only [dedupGo]
      split
      · exact ih
      · rw [List.nodup_cons]
        refine ⟨fun hmem => ?_, ih⟩
        exact (mem_dedupGo.mp hmem).2 (List.mem_cons_self _ _)

theorem indexOf_cons_lt {x a b : String} {xs : List String} (ha : a ≠ x) (hb : b ≠ x)
    (h : xs.indexOf a < xs.indexOf b) :
    (x :: xs).indexOf a < (x :: xs).indexOf b := by
  rw [List.indexOf_cons_ne _ (Ne.symm ha), List.indexOf_cons_ne _ (Ne.symm hb)]
  exact Nat.succ_lt_succ h

theorem pairwise_indexOf_dedupGo (l : List String) : ∀ (seen : List String),
    (dedupGo seen l).Pairwise (fun a b => l.indexOf a < l.indexOf b) := by
  induction l with
  | nil => intro seen; simp [dedupGo]
  | cons x xs ih =>
      intro seen
      simp only [dedupGo]
      split
      · next hx =>
          refine List.Pairwise.imp_of_mem ?_ (ih seen)
          intro a b hma hmb hlt
          rw [mem_dedupGo] at hma hmb
          exact indexOf_cons_lt (fun h => hma.2 (h ▸ hx)) (fun h => hmb.2 (h ▸ hx)) hlt
      · next hx =>
          refine List.Pairwise.cons ?_ ?_
          · intro b hb
            rw [mem_dedupGo] at hb
            have hbx : b ≠ x := fun h => hb.2 (h ▸ List.mem_cons_self _ _)
            rw [List.indexOf_cons_self, List.indexOf_cons_ne _ (Ne.symm hbx)]
            exact Nat.succ_pos _
          · refine List.Pairwise.imp_of_mem ?_ (ih (x :: seen))
            intro a b hma hmb hlt
            rw [mem_dedupGo] at hma hmb
            have hax : a ≠ x := fun h => hma.2 (h ▸ List.mem_cons_self _ _)
            have hbx : b ≠ x := fun h => hmb.2 (h ▸ List.mem_cons_self _ _)
            exact indexOf_cons_lt hax hbx hlt

theorem seriesMinGo_num (a : ℚ) (qs : List ℚ) :
    seriesMinGo (.num a) (qs.map RawVal.num) = .ok (.num (qs.foldl min a)) := by
  induction qs generalizing a with
  | nil => rfl
  | cons q qs ih => simp [seriesMinGo, rawValMin, ih]

theorem seriesMaxGo_num (a : ℚ) (qs : List ℚ) :
    seriesMaxGo (.num a) (qs.map RawVal.num) = .ok (.num (qs.foldl max a)) := by
  induction qs generalizing a with
  | nil => rfl
  | cons q qs ih => simp [seriesMaxGo, rawValMax, ih]

theorem foldl_min_le_init {α : Type} [LinearOrder α] (a : α) (l : List α) :
    l.foldl min a ≤ a := by
  induction l generalizing a with
  | nil => exact le_refl a
  | cons q l ih => exact le_trans (ih (min a q)) (min_le_left a q)

theorem foldl_min_le_mem {α : Type} [LinearOrder α] (a b : α) (l : List α)
    (hb : b ∈ l) : l.foldl min a ≤ b := by
  induction l generalizing a with
  | nil => cases hb
  | cons q l ih =>
      rcases List.mem_cons.mp hb with rfl | hb'
      · exact le_trans (foldl_min_le_init (min a b) l) (min_le_right a b)
      · exact ih _ hb'

theorem foldl_min_mem {α : Type} [LinearOrder α] (a : α) (l : List α) :
    l.foldl min a = a ∨ l.foldl min a ∈ l := by
  induction l generalizing a with
  | nil => exact Or.inl rfl
  | cons q l ih =>
      rcases ih (min a q) with h | h
      · rcases min_choice a q with hq | hq
        · exact Or.inl (by rw [List.foldl_cons, h, hq])
        · exact Or.inr (by rw [List.foldl_cons, h, hq]; exact List.mem_cons_self _ _)
      · exact Or.inr (List.mem_cons_of_mem _ h)

theorem le_foldl_max_init {α : Type} [LinearOrder α] (a : α) (l : List α) :
    a ≤ l.foldl max a := by
  induction l generalizing a with
  | nil => exact le_refl a
  | cons q l ih => exact le_trans (le_max_left a q) (ih (max a q))

theorem mem_le_foldl_max {α : Type} [LinearOrder α] (a b : α) (l : List α)
    (hb : b ∈ l) : b ≤ l.foldl max a := by
  induction l generalizing a with
  | nil => cases hb
  | cons q l ih =>
      rcases List.mem_cons.mp hb with rfl | hb'
      · exact le_trans (le_max_right a b) (le_foldl_max_init (max a b) l)
      · exact ih _ hb'

theorem foldl_max_mem {α : Type} [LinearOrder α] (a : α) (l : List α) :
    l.foldl max a = a ∨ l.foldl max a ∈ l := by
  induction l generalizing a with
  | nil => exact Or.inl rfl
  | cons q l ih =>
      rcases ih (max a q) with h | h
      · rcases max_choice a q with hq | hq
        · exact Or.inl (by rw [List.foldl_cons, h, hq])
        · exact Or.inr (by rw [List.foldl_cons, h, hq]; exact List.mem_cons_self _ _)
      · exact Or.inr (List.mem_cons_of_mem _ h)

theorem allNums_map_num (qs : List ℚ) : allNums (qs.map RawVal.num) = some qs := by
  induction qs with
  | nil => rfl
  | cons q qs ih => simp [allNums, ih]

theorem exists_map_num {vs : List RawVal} (h : ∀ v ∈ vs, v.isNum = true) :
    ∃ qs : List ℚ, vs = qs.map RawVal.num := by
  induction vs with
  | nil => exact ⟨[], rfl⟩
  | cons v vs ih =>
      obtain ⟨qs, hqs⟩ := ih (fun w hw => h w (List.mem_cons_of_mem _ hw))
      cases v with
      | num q => exact ⟨q :: qs, by simp [hqs]⟩
      | str s => exact absurd (h (.str s) (List.mem_cons_self _ _)) (by simp [RawVal.isNum])

theorem batteryData_ne_nil {df : List Item} {id : String}
    (h : id ∈ uniqueIds df) : batteryData df id ≠ [] := by
  rw [uniqueIds, mem_dedupGo] at h
  obtain ⟨it, hit, rfl⟩ := List.mem_map.mp h.1
  intro hnil
  have hmem : it ∈ batteryData df it.battery_id :=
    List.mem_filter.mpr ⟨hit, by simp⟩
  rw [hnil] at hmem
  cases hmem

theorem bd_voltages_num {items : List Item}
    (hnum : ∀ it ∈ items, it.voltage.isNum = true) (id : String) :
    ∀ v ∈ (batteryData (sortByTimestamp items) id).map (·.voltage), v.isNum = true := by
  intro v hv
  obtain ⟨it, hit, rfl⟩ := List.mem_map.mp hv
  have hsorted : it ∈ sortByTimestamp items := (List.mem_filter.mp hit).1
  exact hnum it (mem_sortByTimestamp.mp hsorted)

/-! Claim theorems. -/

/-- C1: for every device series of the timestamp-sorted frame (all voltages
numeric), the per-device summary reports count equal to the number of
readings in the series, min and max equal to the minimum and maximum voltage
over the series (a member of the series bounding it below resp. above), mean
equal to the population mean (`mean · count = sum`), and latest
value/timestamp taken from the last element of the timestamp-ordered series;
the emitted row carries exactly these values (in the source's `%.2f V` /
`strftime` rendering). -/
theorem c1_aggregation_correct (items : List Item)
    (hnum : ∀ it ∈ items, it.voltage.isNum = true)
    (id : String) (hid : id ∈ uniqueIds (sortByTimestamp items)) :
    ∃ (latest : Item) (qs : List ℚ) (mn mx av lastq : ℚ),
      (batteryData (sortByTimestamp items) id).map (·.voltage) = qs.map RawVal.num ∧
      (batteryData (sortByTimestamp items) id).length = qs.length ∧
      (batteryData (sortByTimestamp items) id).getLast? = some latest ∧
      latest.voltage = RawVal.num lastq ∧
      qs.getLast? = some lastq ∧
      mn ∈ qs ∧ (∀ q ∈ qs, mn ≤ q) ∧
      mx ∈ qs ∧ (∀ q ∈ qs, q ≤ mx) ∧
      av * (qs.length : ℚ) = qs.sum ∧
      seriesMin (qs.map RawVal.num) = .ok (.num mn) ∧
      seriesMax (qs.map RawVal.num) = .ok (.num mx) ∧
      seriesMean (qs.map RawVal.num) = .ok av ∧
      summaryRowFor (sortByTimestamp items) id = .ok (some
        { battery_id := id
          latest_voltage := fmt2 lastq ++ " V"
          latest_timestamp := latest.timestamp.strftime ++ " UTC"
          readings_count := qs.length
          min_voltage := fmt2 mn ++ " V"
          max_voltage := fmt2 mx ++ " V"
          avg_voltage := fmt2 av ++ " V" }) := by
  have hbd_ne : batteryData (sortByTimestamp items) id ≠ [] := batteryData_ne_nil hid
  obtain ⟨qs, hqs⟩ := exists_map_num (bd_voltages_num hnum id)
  have hqs_ne : qs ≠ [] := by
    intro h
    rw [h, List.map_nil] at hqs
    exact hbd_ne (List.map_eq_nil_iff.mp hqs)
  obtain ⟨latest, hlast⟩ : ∃ l, (batteryData (sortByTimestamp items) id).getLast? = some l := by
    cases hL : (batteryData (sortByTimestamp items) id).getLast? with
    | some l => exact ⟨l, rfl⟩
    | none => exact absurd (List.getLast?_eq_none_iff.mp hL) hbd_ne
  obtain ⟨q₀, qs', rfl⟩ : ∃ q₀ qs', qs = q₀ :: qs' := by
    cases qs with
    | nil => exact absurd rfl hqs_ne
    | cons q₀ qs' => exact ⟨q₀, qs', rfl⟩
  have hmaplast : Option.map RawVal.num (q₀ :: qs').getLast? = some latest.voltage := by
    rw [← List.getLast?_map, ← hqs, List.getLast?_map, hlast]
    rfl
  obtain ⟨lastq, hql⟩ : ∃ lq, (q₀ :: qs').getLast? = some lq := by
    cases hL : (q₀ :: qs').getLast? with
    | some l => exact ⟨l, rfl⟩
    | none => exact absurd (List.getLast?_eq_none_iff.mp hL) (List.cons_ne_nil _ _)
  rw [hql, Option.map_some'] at hmaplast
  have hlv : latest.voltage = RawVal.num lastq :=
    (Option.some.injEq _ _ ▸ hmaplast).symm
  have hmin : seriesMin ((q₀ :: qs').map RawVal.num)
      = .ok (.num (qs'.foldl min q₀)) := by
    simp only [List.map_cons, seriesMin]
    exact seriesMinGo_num q₀ qs'
  have hmax : seriesMax ((q₀ :: qs').map RawVal.num)
      = .ok (.num (qs'.foldl max q₀)) := by
    simp only [List.map_cons, seriesMax]
    exact seriesMaxGo_num q₀ qs'
  have hmean : seriesMean ((q₀ :: qs').map RawVal.num)
      = .ok ((q₀ :: qs').sum / (((q₀ :: qs').length : ℕ) : ℚ)) := by
    simp only [seriesMean, allNums_map_num]
  have hlen_ne : (((q₀ :: qs').length : ℕ) : ℚ) ≠ 0 :=
    Nat.cast_ne_zero.mpr (List.length_pos.mpr (List.cons_ne_nil _ _)).ne'
  have havmul : ((q₀ :: qs').sum / (((q₀ :: qs').length : ℕ) : ℚ))
      * (((q₀ :: qs').length : ℕ) : ℚ) = (q₀ :: qs').sum :=
    div_mul_cancel₀ _ hlen_ne
  have hmnmem : qs'.foldl min q₀ ∈ (q₀ :: qs') := by
    rcases foldl_min_mem q₀ qs' with h | h
    · rw [h]; exact List.mem_cons_self _ _
    · exact List.mem_cons_of_mem _ h
  have hmnle : ∀ q ∈ (q₀ :: qs'), qs'.foldl min q₀ ≤ q := by
    intro q hq
    rcases List.mem_cons.mp hq with rfl | hq'
    · exact foldl_min_le_init _ _
    · exact foldl_min_le_mem _ _ _ hq'
  have hmxmem : qs'.foldl max q₀ ∈ (q₀ :: qs') := by
    rcases foldl_max_mem q₀ qs' with h | h
    · rw [h]; exact List.mem_cons_self _ _
    · exact List.mem_cons_of_mem _ h
  have hmxle : ∀ q ∈ (q₀ :: qs'), q ≤ qs'.foldl max q₀ := by
    intro q hq
    rcases List.mem_cons.mp hq with rfl | hq'
    · exact le_foldl_max_init _ _
    · exact mem_le_foldl_max _ _ _ hq'
  have hlen : (batteryData (sortByTimestamp items) id).length = (q₀ :: qs').length := by
    have hc := congrArg List.length hqs
    simpa using hc
  have hfl : fmtRaw latest.voltage = .ok (fmt2 lastq ++ " V") := by
    rw [hlv]
    rfl
  have hrow : summaryRowFor (sortByTimestamp items) id = .ok (some
      { battery_id := id
        latest_voltage := fmt2 lastq ++ " V"
        latest_timestamp := latest.timestamp.strftime ++ " UTC"
        readings_count := (q₀ :: qs').length
        min_voltage := fmt2 (qs'.foldl min q₀) ++ " V"
        max_voltage := fmt2 (qs'.foldl max q₀) ++ " V"
        avg_voltage := fmt2 ((q₀ :: qs').sum / (((q₀ :: qs').length : ℕ) : ℚ)) ++ " V" }) := by
    simp only [summaryRowFor, hlast, hlv, fmtRaw, hqs, hmin, hmax, hmean, hlen]
  exact ⟨latest, q₀ :: qs', qs'.foldl min q₀, qs'.foldl max q₀,
    (q₀ :: qs').sum / (((q₀ :: qs').length : ℕ) : ℚ), lastq,
    hqs, hlen, hlast, hlv, hql, hmnmem, hmnle, hmxmem, hmxle, havmul,
    hmin, hmax, hmean, hrow⟩

/-- Witness for C1 at the concrete series `[1.0, 2.0, 3.0]` of battery
`"b1"`: the instantiated conclusion, together with the concrete emitted row
showing min 1.00, max 3.00, mean 2.00, count 3, latest 3.00. -/
theorem c1_aggregation_correct_witness :
    (∃ (latest : Item) (qs : List ℚ) (mn mx av lastq : ℚ),
      (batteryData (sortByTimestamp exSeries3) "b1").map (·.voltage) = qs.map RawVal.num ∧
      (batteryData (sortByTimestamp exSeries3) "b1").length = qs.length ∧
      (batteryData (sortByTimestamp exSeries3) "b1").getLast? = some latest ∧
      latest.voltage = RawVal.num lastq ∧
      qs.getLast? = some lastq ∧
      mn ∈ qs ∧ (∀ q ∈ qs, mn ≤ q) ∧
      mx ∈ qs ∧ (∀ q ∈ qs, q ≤ mx) ∧
      av * (qs.length : ℚ) = qs.sum ∧
      seriesMin (qs.map RawVal.num) = .ok (.num mn) ∧
      seriesMax (qs.map RawVal.num) = .ok (.num mx) ∧
      seriesMean (qs.map RawVal.num) = .ok av ∧
      summaryRowFor (sortByTimestamp exSeries3) "b1" = .ok (some
        { battery_id := "b1"
          latest_voltage := fmt2 lastq ++ " V"
          latest_timestamp := latest.timestamp.strftime ++ " UTC"
          readings_count := qs.length
          min_voltage := fmt2 mn ++ " V"
          max_voltage := fmt2 mx ++ " V"
          avg_voltage := fmt2 av ++ " V" })) ∧
    summaryRows (sortByTimestamp exSeries3) = .ok [exRow3] :=
  ⟨c1_aggregation_correct exSeries3 (by decide) "b1" (by decide), rfl⟩

/-- C2, counterexample: on the input `exBA` the earliest reading belongs to
device `"B"`, so the output device sequence is `["B", "A"]` although `"A"`
precedes `"B"` lexicographically — the device ordering is not ascending by
device id. -/
theorem c2_counterexample :
    uniqueIds (sortByTimestamp exBA) = ["B", "A"] ∧
    "A".data < "B".data := by decide

/-- C2 (amended): the sequence of device series is ordered by first
appearance of each device id in the timestamp-sorted frame, not by ascending
id: the id list is duplicate-free, contains exactly the ids occurring in the
sorted frame, and is strictly increasing in first-occurrence position; it is
a deterministic function of the input batch. -/
theorem c2_first_seen_order (items : List Item) :
    (uniqueIds (sortByTimestamp items)).Nodup ∧
    (∀ id, id ∈ uniqueIds (sortByTimestamp items) ↔
        id ∈ (sortByTimestamp items).map (·.battery_id)) ∧
    (uniqueIds (sortByTimestamp items)).Pairwise (fun a b =>
      ((sortByTimestamp items).map (·.battery_id)).indexOf a
        < ((sortByTimestamp items).map (·.battery_id)).indexOf b) := by
  refine ⟨nodup_dedupGo, ?_, pairwise_indexOf_dedupGo _ []⟩
  intro id
  rw [uniqueIds, mem_dedupGo]
  simp

/-- Witness for C2 (amended) at the concrete input `exBA`. -/
theorem c2_first_seen_order_witness :
    (uniqueIds (sortByTimestamp exBA)).Nodup ∧
    (uniqueIds (sortByTimestamp exBA)).Pairwise (fun a b =>
      ((sortByTimestamp exBA).map (·.battery_id)).indexOf a
        < ((sortByTimestamp exBA).map (·.battery_id)).indexOf b) :=
  ⟨(c2_first_seen_order exBA).1, (c2_first_seen_order exBA).2.2⟩

/-- C4, counterexample: the palette (main.py line 68) has ten entries, not
eight, and with the twelve-device input `ex12` the trace at output position
9 (0-indexed 8) receives color index 8, not 0. -/
theorem c4_counterexample :
    colors.length = 10 ∧
    (chartTraces (sortByTimestamp ex12)).length = 12 ∧
    ((chartTraces (sortByTimestamp ex12)).get ⟨8, by decide⟩).colorIndex = 8 := by
  decide

/-- C4 (amended): color assignment is `colorIndex = position mod 10` for the
fixed ten-entry palette, so with more than ten devices the wrap-around to
color index 0 first happens at 0-indexed output position 10. -/
theorem c4_color_wraparound (items : List Item) (i : Nat)
    (h : i < (chartTraces (sortByTimestamp items)).length) :
    ((chartTraces (sortByTimestamp items)).get ⟨i, h⟩).colorIndex = i % 10 := by
  have hlen : (chartTraces (sortByTimestamp items)).length
      = (uniqueIds (sortByTimestamp items)).enum.length := by
    simp [chartTraces]
  rw [List.get_eq_getElem]
  simp only [chartTraces, List.getElem_map, List.getElem_enum]
  rfl

/-- Witness for C4 (amended): with twelve devices, the trace at 0-indexed
position 10 wraps around to color index 0. -/
theorem c4_color_wraparound_witness :
    ((chartTraces (sortByTimestamp ex12)).get ⟨10, by decide⟩).colorIndex = 0 := by
  have h := c4_color_wraparound ex12 10 (by decide)
  simpa using h

/-- C5, counterexample: `refresh_with_time_range(-5, 'hour')` does not fail:
with `now = 1000000` it proceeds to fetch with `start_time = 1018000` (five
hours in the future) and `end_time = 1000000`, a window with start after
end; no `InvalidWindowSpec` failure exists in the code. -/
theorem c5_counterexample :
    refresh_with_time_range (some (-5)) (some "hour") 1000000
      = { start_time := some 1018000, end_time := some 1000000 } ∧
    (1000000 : Int) < 1018000 := by decide

/-- C5 (amended): the time-range resolution performs no validation and never
fails: any integer amount with unit `minute`/`hour`/`day` yields
`start_time = now - amount·unit` (for a negative amount a start in the
future, after the end), any other unit yields no lower bound with
`end_time = now`, and a missing amount or unit fetches all data. -/
theorem c5_no_validation (v now : Int) (u : String)
    (hm : u ≠ "minute") (hh : u ≠ "hour") (hd : u ≠ "day") :
    refresh_with_time_range (some v) (some "minute") now
      = { start_time := some (now - v * 60), end_time := some now } ∧
    refresh_with_time_range (some v) (some "hour") now
      = { start_time := some (now - v * 3600), end_time := some now } ∧
    refresh_with_time_range (some v) (some "day") now
      = { start_time := some (now - v * 86400), end_time := some now } ∧
    refresh_with_time_range (some v) (some u) now
      = { start_time := none, end_time := some now } ∧
    refresh_with_time_range none (some u) now
      = { start_time := none, end_time := none } ∧
    refresh_with_time_range (some v) none now
      = { start_time := none, end_time := none } := by
  refine ⟨rfl, rfl, rfl, ?_, rfl, rfl⟩
  simp only [refresh_with_time_range]
  rw [if_neg hm, if_neg hh, if_neg hd]

/-- Witness for C5 (amended) at amount `-5`, unit `"fortnight"`, `now = 0`. -/
theorem c5_no_validation_witness :
    refresh_with_time_range (some (-5)) (some "minute") 0
      = { start_time := some (0 - (-5) * 60), end_time := some 0 } ∧
    refresh_with_time_range (some (-5)) (some "hour") 0
      = { start_time := some (0 - (-5) * 3600), end_time := some 0 } ∧
    refresh_with_time_range (some (-5)) (some "day") 0
      = { start_time := some (0 - (-5) * 86400), end_time := some 0 } ∧
    refresh_with_time_range (some (-5)) (some "fortnight") 0
      = { start_time := none, end_time := some 0 } ∧
    refresh_with_time_range none (some "fortnight") 0
      = { start_time := none, end_time := none } ∧
    refresh_with_time_range (some (-5)) none 0
      = { start_time := none, end_time := none } :=
  c5_no_validation (-5) 0 "fortnight" (by decide) (by decide) (by decide)

/-- C6, counterexample: on the five-record batch `exBad5` whose third record
has a non-numeric voltage, nothing is rejected and no summary is produced:
the chart is rendered with all five records plotted — the malformed
`"abc"` voltage included as a data point — and then the summary aggregation
raises, leaving the chart in place with the catch-all error label appended;
there is no `validCount=4`/`rejectedCount=1`, and the other four records are
not processed into summary rows. -/
theorem c6_counterexample :
    create_visualizations exBad5
      = .errorLabel
          [{ name := "Battery b1",
             x := [mkTs 1, mkTs 2, mkTs 3, mkTs 4, mkTs 5],
             y := [.num 1, .num 2, .str "abc", .num 4, .num 5],
             colorIndex := 0, color := "#1f77b4" }]
          "Error creating visualizations: TypeError: unsupported comparison between str and float" := by
  decide

/-- C6 (amended): the code performs no per-record validation — the sorted
frame retains every input record, malformed ones included — and when the
summary computation raises (as a non-numeric voltage makes it do), the
exception is caught by the handler at lines 185-186: the chart already
rendered at line 149 (plotting every record) persists, the error label is
appended after it, and no summary rows are produced for any device. -/
theorem c6_batch_abort (items : List Item) (it : Item) (its : List Item) (e : String)
    (hcons : items = it :: its)
    (herr : summaryRows (sortByTimestamp items) = .error e) :
    create_visualizations items
      = .errorLabel (chartTraces (sortByTimestamp items))
          ("Error creating visualizations: " ++ e) ∧
    (sortByTimestamp items).length = items.length ∧
    (∀ a, a ∈ sortByTimestamp items ↔ a ∈ items) := by
  subst hcons
  refine ⟨?_, length_sortByTimestamp _, fun a => mem_sortByTimestamp⟩
  simp only [create_visualizations]
  rw [herr]

/-- Witness for C6 (amended) at the concrete batch `exBad5`. -/
theorem c6_batch_abort_witness :
    create_visualizations exBad5
      = .errorLabel (chartTraces (sortByTimestamp exBad5))
          ("Error creating visualizations: "
            ++ "TypeError: unsupported comparison between str and float") ∧
    (sortByTimestamp exBad5).length = exBad5.length :=
  ⟨(c6_batch_abort exBad5 ⟨"b1", .num 1, mkTs 1⟩
      [⟨"b1", .num 2, mkTs 2⟩, ⟨"b1", .str "abc", mkTs 3⟩,
       ⟨"b1", .num 4, mkTs 4⟩, ⟨"b1", .num 5, mkTs 5⟩]
      "TypeError: unsupported comparison between str and float" rfl rfl).1,
   (c6_batch_abort exBad5 ⟨"b1", .num 1, mkTs 1⟩
      [⟨"b1", .num 2, mkTs 2⟩, ⟨"b1", .str "abc", mkTs 3⟩,
       ⟨"b1", .num 4, mkTs 4⟩, ⟨"b1", .num 5, mkTs 5⟩]
      "TypeError: unsupported comparison between str and float" rfl rfl).2.1⟩

/-- C7, counterexample: on an empty record collection the code does not
return an empty well-formed chart model and summary — `fetch_data` returns
early with status `"No data available."` and no visualization at all, and
`create_visualizations` returns its no-data label branch rather than
`rendered [] []`. -/
theorem c7_counterexample :
    create_visualizations [] = VizResult.noData ∧
    fetch_data none none (.ok (some [])) "2026-10-12 00:00:00"
      = { query := [], status := "No data available.", viz := none } := by decide

/-- C7 (amended): for an empty record collection and any window, no error is
raised, but instead of an empty chart/summary model the code takes the
no-data branch: `fetch_data` sets the status label to `"No data available."`
and returns without building any model, and `create_visualizations` renders
the `"No battery data available."` label. -/
theorem c7_empty_no_data_branch (start_time end_time : Option Int) (nowStr : String) :
    create_visualizations [] = VizResult.noData ∧
    fetch_data start_time end_time (.ok (some [])) nowStr
      = { query := buildParams start_time end_time,
          status := "No data available.", viz := none } ∧
    fetch_data start_time end_time (.ok none) nowStr
      = { query := buildParams start_time end_time,
          status := "No data available.", viz := none } :=
  ⟨rfl, rfl, rfl⟩

/-- Witness for C7 (amended) at a concrete window and clock string. -/
theorem c7_empty_no_data_branch_witness :
    create_visualizations [] = VizResult.noData ∧
    fetch_data (some 0) (some 3600) (.ok (some [])) "2026-10-12 00:00:00"
      = { query := buildParams (some 0) (some 3600),
          status := "No data available.", viz := none } ∧
    fetch_data (some 0) (some 3600) (.ok none) "2026-10-12 00:00:00"
      = { query := buildParams (some 0) (some 3600),
          status := "No data available.", viz := none } :=
  c7_empty_no_data_branch (some 0) (some 3600) "2026-10-12 00:00:00"

/-- C8: the pipeline is deterministic — two runs of `create_visualizations`
on identical input records yield identical results (series, ordering,
points, colors and summary rows); the embedding is a pure function of the
batch, the code containing no other source of nondeterminism in the data
path. -/
theorem c8_deterministic (items : List Item) (r₁ r₂ : VizResult)
    (h₁ : r₁ = create_visualizations items)
    (h₂ : r₂ = create_visualizations items) :
    r₁ = r₂ :=
  h₁.trans h₂.symm

/-- Witness for C8: a literal first run on `exBA` equals a second run. -/
theorem c8_deterministic_witness :
    VizResult.rendered
      [{ name := "Battery B", x := [mkTs 1], y := [.num 1],
         colorIndex := 0, color := "#1f77b4" },
       { name := "Battery A", x := [mkTs 2], y := [.num 2],
         colorIndex := 1, color := "#ff7f0e" }]
      [{ battery_id := "B", latest_voltage := "1.00 V",
         latest_timestamp := "2026-01-01 00:00:01 UTC", readings_count := 1,
         min_voltage := "1.00 V", max_voltage := "1.00 V",
         avg_voltage := "1.00 V" },
       { battery_id := "A", latest_voltage := "2.00 V",
         latest_timestamp := "2026-01-01 00:00:02 UTC", readings_count := 1,
         min_voltage := "2.00 V", max_voltage := "2.00 V",
         avg_voltage := "2.00 V" }]
      = create_visualizations exBA :=
  c8_deterministic exBA _ (create_visualizations exBA) (by decide) rfl

/-- C9, counterexample: the summary row emitted for the series
`[1.0, 2.0, 3.0]` carries its voltages and timestamp as formatted strings
with units and fixed decimal places (`"3.00 V"`, `"1.00 V"`,
`"2026-01-01 00:00:03 UTC"`), not as typed numeric values. -/
theorem c9_counterexample :
    summaryRows (sortByTimestamp exSeries3)
      = .ok [{ battery_id := "b1", latest_voltage := "3.00 V",
               latest_timestamp := "2026-01-01 00:00:03 UTC", readings_count := 3,
               min_voltage := "1.00 V", max_voltage := "3.00 V",
               avg_voltage := "2.00 V" }] := rfl

/-- C9 (amended): the table builder does not emit typed numeric values —
every emitted summary row carries its four voltage fields and its timestamp
field as formatted strings (the `%.2f V` rendering of the latest/min/max/
mean aggregates, and the `strftime`-plus-`" UTC"` rendering of the latest
timestamp); only the readings count is emitted as a number. -/
theorem c9_rows_formatted (df : List Item) (id : String) (row : SummaryRow)
    (h : summaryRowFor df id = .ok (some row)) :
    ∃ (latest : Item) (mnv mxv : RawVal) (av : ℚ),
      (batteryData df id).getLast? = some latest ∧
      seriesMin ((batteryData df id).map (·.voltage)) = .ok mnv ∧
      seriesMax ((batteryData df id).map (·.voltage)) = .ok mxv ∧
      seriesMean ((batteryData df id).map (·.voltage)) = .ok av ∧
      fmtRaw latest.voltage = .ok row.latest_voltage ∧
      fmtRaw mnv = .ok row.min_voltage ∧
      fmtRaw mxv = .ok row.max_voltage ∧
      row.avg_voltage = fmt2 av ++ " V" ∧
      row.latest_timestamp = latest.timestamp.strftime ++ " UTC" ∧
      row.readings_count = (batteryData df id).length := by
  revert h
  simp only [summaryRowFor]
  intro h
  split at h
  · simp at h
  · rename_i latest hlast
    split at h
    · simp at h
    · rename_i lv hfl
      split at h
      · simp at h
      · rename_i mnv hmn
        split at h
        · simp at h
        · rename_i mns hfmn
          split at h
          · simp at h
          · rename_i mxv hmx
            split at h
            · simp at h
            · rename_i mxs hfmx
              split at h
              · simp at h
              · rename_i av hmean
                simp only [Except.ok.injEq, Option.some.injEq] at h
                subst h
                exact ⟨latest, mnv, mxv, av, hlast, hmn, hmx, hmean,
                  hfl, hfmn, hfmx, rfl, rfl, rfl⟩

/-- Witness for C9 (amended) at the concrete series `exSeries3` and its
emitted row `exRow3`. -/
theorem c9_rows_formatted_witness :
    ∃ (latest : Item) (mnv mxv : RawVal) (av : ℚ),
      (batteryData (sortByTimestamp exSeries3) "b1").getLast? = some latest ∧
      seriesMin ((batteryData (sortByTimestamp exSeries3) "b1").map (·.voltage)) = .ok mnv ∧
      seriesMax ((batteryData (sortByTimestamp exSeries3) "b1").map (·.voltage)) = .ok mxv ∧
      seriesMean ((batteryData (sortByTimestamp exSeries3) "b1").map (·.voltage)) = .ok av ∧
      fmtRaw latest.voltage = .ok exRow3.latest_voltage ∧
      fmtRaw mnv = .ok exRow3.min_voltage ∧
      fmtRaw mxv = .ok exRow3.max_voltage ∧
      exRow3.avg_voltage = fmt2 av ++ " V" ∧
      exRow3.latest_timestamp = latest.timestamp.strftime ++ " UTC" ∧
      exRow3.readings_count = (batteryData (sortByTimestamp exSeries3) "b1").length :=
  c9_rows_formatted (sortByTimestamp exSeries3) "b1" exRow3 rfl

/-- C10, counterexample: when the visualization step fails (batch `exBad5`),
the failure message is not written into the status label — the status label
reports success while the error text appears only in the in-container label
produced by `create_visualizations` itself, after the chart that was already
rendered. -/
theorem c10_counterexample :
    fetch_data none none (.ok (some exBad5)) "2026-10-12 00:00:00"
      = { query := [],
          status := "Data loaded successfully. Last updated: 2026-10-12 00:00:00 UTC",
          viz := some (.errorLabel
            [{ name := "Battery b1",
               x := [mkTs 1, mkTs 2, mkTs 3, mkTs 4, mkTs 5],
               y := [.num 1, .num 2, .str "abc", .num 4, .num 5],
               colorIndex := 0, color := "#1f77b4" }]
            "Error creating visualizations: TypeError: unsupported comparison between str and float") } := by
  decide

/-- C10 (amended): `fetch_data` always returns normally; a failure of the
HTTP request or JSON decoding is caught with its message written into the
status label and no visualization produced, an empty or item-less response
gives the no-data status, and a well-formed response gives the success
status with whatever `create_visualizations` produced (which handles its own
internal failures as an error label). -/
theorem c10_errors_to_status (start_time end_time : Option Int)
    (e nowStr : String) (it : Item) (its : List Item) :
    fetch_data start_time end_time (.error e) nowStr
      = { query := buildParams start_time end_time,
          status := "Error fetching data: " ++ e, viz := none } ∧
    fetch_data start_time end_time (.ok none) nowStr
      = { query := buildParams start_time end_time,
          status := "No data available.", viz := none } ∧
    fetch_data start_time end_time (.ok (some [])) nowStr
      = { query := buildParams start_time end_time,
          status := "No data available.", viz := none } ∧
    fetch_data start_time end_time (.ok (some (it :: its))) nowStr
      = { query := buildParams start_time end_time,
          status := "Data loaded successfully. Last updated: " ++ nowStr ++ " UTC",
          viz := some (create_visualizations (it :: its)) } :=
  ⟨rfl, rfl, rfl, rfl⟩

/-- Witness for C10 (amended) at a concrete failure message and batch. -/
theorem c10_errors_to_status_witness :
    fetch_data none none (.error "connection refused") "2026-10-12 00:00:00"
      = { query := buildParams none none,
          status := "Error fetching data: " ++ "connection refused", viz := none } ∧
    fetch_data none none (.ok none) "2026-10-12 00:00:00"
      = { query := buildParams none none,
          status := "No data available.", viz := none } ∧
    fetch_data none none (.ok (some [])) "2026-10-12 00:00:00"
      = { query := buildParams none none,
          status := "No data available.", viz := none } ∧
    fetch_data none none (.ok (some (⟨"b1", .num 1, mkTs 1⟩ :: []))) "2026-10-12 00:00:00"
      = { query := buildParams none none,
          status := "Data loaded successfully. Last updated: "
            ++ "2026-10-12 00:00:00" ++ " UTC",
          viz := some (create_visualizations (⟨"b1", .num 1, mkTs 1⟩ :: [])) } :=
  c10_errors_to_status none none "connection refused" "2026-10-12 00:00:00"
    ⟨"b1", .num 1, mkTs 1⟩ []

end IotMan
